import Mathlib

/-!
Verification development for the `webrtc-pion-turn` TURN server.

Shallow embedding of:
* `internal/server/util.go` — nonce issuance/validation, request
  authentication (`authenticateRequest`), response sending helpers
  (`buildAndSend`, `buildAndSendErr`, `buildMsg`) and lifetime clamping
  (`allocationLifeTime`);
* `examples/turn-server/turn-socks-kerry/main.go` — the listener-creation
  logic of `singleThreadSocket`.

Go's mutable state (the `sync.Map` nonce registry, the packet connection)
is passed explicitly; `time.Now()` is an explicit `now : Int` parameter
(an instant in nanoseconds, as Go's `time.Time`/`time.Duration` count);
the random nonce produced by `buildNonce` is an explicit
`Except Err String` parameter (generation can fail).
-/

namespace WebrtcPionTurn

/-- Go `error` values that occur in `util.go`.  `fmt.Errorf` wrappings are
represented structurally.  `opError` stands for a `*net.OpError` returned by
`conn.WriteTo` wrapping an underlying error (`errors.Is` unwraps it). -/
inductive Err where
  /-- `errFailedToGenerateNonce` wrapped around a detail message. -/
  | failedToGenerateNonce (detail : String)
  /-- `errDuplicatedNonce`. -/
  | duplicatedNonce
  /-- `fmt.Errorf("%w %v %v", errFailedToSendError, sendErr, err)`. -/
  | failedToSendError (sendErr : Err) (orig : Err)
  /-- `fmt.Errorf("%w %s", errNoSuchUser, username)`. -/
  | noSuchUser (username : String)
  /-- an error returned by a `stun` attribute `GetFrom` or by
  `stun.MessageIntegrity.Check`. -/
  | attr (msg : String)
  /-- `net.ErrClosed`. -/
  | netErrClosed
  /-- a `*net.OpError` wrapping an underlying error. -/
  | opError (inner : Err)
  /-- any other error (e.g. a `stun.Build` failure). -/
  | other (msg : String)
deriving DecidableEq

/-- `errors.Is(err, net.ErrClosed)`: walks the unwrap chain of the error
returned by `conn.WriteTo`. -/
def errIsNetErrClosed : Err → Bool
  | .netErrClosed => true
  | .opError e => errIsNetErrClosed e
  | _ => false

/-- A key of the `sync.Map` nonce registry.  The map's keys have interface
type: `LoadOrStore(nonce, time.Now())` stores a `string` key, while
`Delete(nonceAttr)` in `authenticateRequest` passes the `*stun.Nonce`
pointer `nonceAttr` itself, a distinct dynamic type.  Interface equality in
Go never identifies a `*stun.Nonce` with a `string`, so the two key kinds
are separate constructors; `ptr n` is the address of the `nonceAttr`
allocation of one call. -/
inductive NKey where
  | str (s : String)
  | ptr (addr : Nat)
deriving DecidableEq

/-- The `sync.Map` used as nonce registry: keys (interface values) paired
with their stored issue instant (`time.Time`, in nanoseconds).  The only
writer in the repository stores `time.Time` values, so the value type is
`Int` directly; the `nonceCreationTime.(time.Time)` assertion always
succeeds. -/
abbrev NonceMap := List (NKey × Int)

/-- `sync.Map.Load`. -/
def syncMapLoad (m : NonceMap) (k : NKey) : Option Int :=
  (m.find? (fun kv => kv.1 == k)).map (fun kv => kv.2)

/-- `sync.Map.LoadOrStore`: returns the updated map, the actual value, and
the `loaded` flag (`true` when the key already existed; the existing value
is kept, not overwritten). -/
def syncMapLoadOrStore (m : NonceMap) (k : NKey) (v : Int) :
    NonceMap × Int × Bool :=
  match syncMapLoad m k with
  | some actual => (m, actual, true)
  | none => (m ++ [(k, v)], v, false)

/-- `sync.Map.Delete`. -/
def syncMapDelete (m : NonceMap) (k : NKey) : NonceMap :=
  m.filter (fun kv => kv.1 != k)

/-- All keys of the registry are `string` keys — the shape every registry
reachable through this code has, since `LoadOrStore` is its only writer. -/
def strKeyed (m : NonceMap) : Bool :=
  m.all (fun kv => match kv.1 with | .str _ => true | .ptr _ => false)

/-- One hour in nanoseconds (`time.Hour`). -/
def hourNs : Int := 3600000000000

/-- `maximumAllocationLifetime = time.Hour` (util.go). -/
def maximumAllocationLifetime : Int := hourNs

/-- `nonceLifetime = time.Hour` (util.go). -/
def nonceLifetime : Int := hourNs

/-- Modelled from the spec: `proto.DefaultLifetime`, the default allocation
lifetime used by `allocationLifeTime`, lives in `internal/proto`, which is
part of this repository but not among the provided sources.  The spec fixes
it: "Default allocation lifetime and maximum allocation lifetime: 1 hour
each". -/
def DefaultLifetime : Int := hourNs

/-- `stun.CodeUnauthorized`. -/
def codeUnauthorized : Nat := 401

/-- `stun.CodeStaleNonce`. -/
def codeStaleNonce : Nat := 438

/-- `stun.CodeBadRequest`. -/
def codeBadRequest : Nat := 400

/-- `stun.ClassErrorResponse`. -/
def classErrorResponse : Nat := 3

/-- A `stun.Setter` as used by `buildMsg`/`authenticateRequest`: each
constructor records what the setter writes into the message being built. -/
inductive Setter where
  /-- `&stun.Message{TransactionID: transactionID}`. -/
  | txID (t : Nat)
  /-- `stun.NewType(method, class)` applied as a setter. -/
  | msgType (method : Nat) (cls : Nat)
  /-- `&stun.ErrorCodeAttribute{Code: code}`. -/
  | errorCode (code : Nat)
  /-- `stun.NewNonce(nonce)`. -/
  | nonceAttr (s : String)
  /-- `stun.NewRealm(realm)`. -/
  | realmAttr (s : String)
deriving DecidableEq

/-- The observable content of a message assembled by `stun.Build`. -/
structure BuiltMsg where
  transactionID : Nat
  method : Nat
  msgClass : Nat
  errorCode : Option Nat
  nonce : Option String
  realm : Option String
deriving DecidableEq

/-- Applying one setter to the message under construction. -/
def applySetter (msg : BuiltMsg) : Setter → BuiltMsg
  | .txID t => { msg with transactionID := t }
  | .msgType m c => { msg with method := m, msgClass := c }
  | .errorCode c => { msg with errorCode := some c }
  | .nonceAttr s => { msg with nonce := some s }
  | .realmAttr s => { msg with realm := some s }

/-- `stun.Build(attrs...)` on the setters this code uses: fold the setters
over an empty message. -/
def stunBuild (attrs : List Setter) : BuiltMsg :=
  attrs.foldl applySetter ⟨0, 0, 0, none, none, none⟩

/-- `buildMsg(transactionID, msgType, additional...)`:
`append([]stun.Setter{&stun.Message{TransactionID: transactionID}, msgType},
additional...)`. -/
def buildMsg (transactionID : Nat) (method cls : Nat)
    (additional : List Setter) : List Setter :=
  [Setter.txID transactionID, Setter.msgType method cls] ++ additional

/-- The packet connection of one exchange, as the external collaborators
behave during it: `buildErr` is what `stun.Build` returns (none = built
message), `writeErr` is what `conn.WriteTo` returns. -/
structure Conn where
  buildErr : Option Err
  writeErr : Option Err

/-- `buildAndSend(conn, dst, attrs...)`.  Returns the Go error and the list
of messages handed to `conn.WriteTo` (for observing what was sent).  A
write failure satisfying `errors.Is(err, net.ErrClosed)` is swallowed. -/
def buildAndSend (conn : Conn) (attrs : List Setter) :
    Option Err × List BuiltMsg :=
  match conn.buildErr with
  | some err => (some err, [])
  | none =>
    let msg := stunBuild attrs
    match conn.writeErr with
    | none => (none, [msg])
    | some err => if errIsNetErrClosed err then (none, [msg]) else (some err, [msg])

/-- `buildAndSendErr(conn, dst, err, attrs...)`: send a STUN packet and
return the original error to the caller, wrapping a send failure together
with it. -/
def buildAndSendErr (conn : Conn) (err : Err) (attrs : List Setter) :
    Err × List BuiltMsg :=
  let r := buildAndSend conn attrs
  match r.1 with
  | some sendErr => (Err.failedToSendError sendErr err, r.2)
  | none => (err, r.2)

/-- The inbound `*stun.Message` as `authenticateRequest` and
`allocationLifeTime` observe it through the external wire codec:
`hasIntegrity` is `m.Contains(stun.AttrMessageIntegrity)`; each
`xAttr` field is the outcome of the corresponding `GetFrom(m)`
(`error` = absent or malformed); `checkIntegrity key` is what
`stun.MessageIntegrity(key).Check(m)` returns; `lifetimeAttr` is the
outcome of `proto.Lifetime.GetFrom(m)` as a duration in nanoseconds. -/
structure StunMessage where
  transactionID : Nat
  hasIntegrity : Bool
  nonceAttr : Except Err String
  usernameAttr : Except Err String
  realmAttr : Except Err String
  lifetimeAttr : Except Err Int
  checkIntegrity : String → Option Err

/-- The fields of `Request` that `authenticateRequest` uses.  `authHandler`
is the external `CredentialResolver`: `some key` when `(key, true)` is
returned.  Keys (`[]byte`) are modelled as strings.  `srcAddr` is an opaque
address. -/
structure Request where
  nonces : NonceMap
  realm : String
  authHandler : String → String → Nat → Option String
  conn : Conn
  srcAddr : Nat

/-- The outcome of one `authenticateRequest` call: the Go return triple
`(stun.MessageIntegrity, bool, error)` together with the final nonce
registry and the messages handed to the transport. -/
structure AuthResult where
  key : Option String
  authenticated : Bool
  err : Option Err
  nonces : NonceMap
  sent : List BuiltMsg
deriving DecidableEq

/-- The `respondWithNonce` closure inside `authenticateRequest`: generate a
nonce (`genNonce` is `buildNonce()`'s outcome), `LoadOrStore` it at `now`,
treat a collision as `errDuplicatedNonce`, otherwise send the challenge
response carrying the error code, the nonce and the realm. -/
def respondWithNonce (now : Int) (genNonce : Except Err String) (conn : Conn)
    (realm : String) (transactionID callingMethod responseCode : Nat)
    (nonces : NonceMap) : AuthResult :=
  match genNonce with
  | .error err => ⟨none, false, some err, nonces, []⟩
  | .ok nonce =>
    let lsr := syncMapLoadOrStore nonces (NKey.str nonce) now
    if lsr.2.2 then
      ⟨none, false, some Err.duplicatedNonce, lsr.1, []⟩
    else
      let snd := buildAndSend conn (buildMsg transactionID callingMethod
        classErrorResponse
        [Setter.errorCode responseCode, Setter.nonceAttr nonce,
         Setter.realmAttr realm])
      ⟨none, false, snd.1, lsr.1, snd.2⟩

/-- `authenticateRequest(r, m, callingMethod)` of `util.go`.  `nonceAttrPtr`
stands for the address of this call's fresh `nonceAttr := &stun.Nonce{}`
allocation: the two `r.Nonces.Delete(nonceAttr)` statements pass that
pointer — not `string(*nonceAttr)` — as the map key. -/
def authenticateRequest (now : Int) (genNonce : Except Err String)
    (nonceAttrPtr : Nat) (r : Request) (m : StunMessage)
    (callingMethod : Nat) : AuthResult :=
  if !m.hasIntegrity then
    respondWithNonce now genNonce r.conn r.realm m.transactionID
      callingMethod codeUnauthorized r.nonces
  else
    let badRequestMsg := buildMsg m.transactionID callingMethod
      classErrorResponse [Setter.errorCode codeBadRequest]
    match m.nonceAttr with
    | .error err =>
      let be := buildAndSendErr r.conn err badRequestMsg
      ⟨none, false, some be.1, r.nonces, be.2⟩
    | .ok nonceStr =>
      match syncMapLoad r.nonces (NKey.str nonceStr) with
      | none =>
        let nonces1 := syncMapDelete r.nonces (NKey.ptr nonceAttrPtr)
        respondWithNonce now genNonce r.conn r.realm m.transactionID
          callingMethod codeStaleNonce nonces1
      | some nonceCreationTime =>
        if now - nonceCreationTime ≥ nonceLifetime then
          let nonces1 := syncMapDelete r.nonces (NKey.ptr nonceAttrPtr)
          respondWithNonce now genNonce r.conn r.realm m.transactionID
            callingMethod codeStaleNonce nonces1
        else
          match m.realmAttr with
          | .error err =>
            let be := buildAndSendErr r.conn err badRequestMsg
            ⟨none, false, some be.1, r.nonces, be.2⟩
          | .ok realmStr =>
            match m.usernameAttr with
            | .error err =>
              let be := buildAndSendErr r.conn err badRequestMsg
              ⟨none, false, some be.1, r.nonces, be.2⟩
            | .ok usernameStr =>
              match r.authHandler usernameStr realmStr r.srcAddr with
              | none =>
                let be := buildAndSendErr r.conn
                  (Err.noSuchUser usernameStr) badRequestMsg
                ⟨none, false, some be.1, r.nonces, be.2⟩
              | some ourKey =>
                match m.checkIntegrity ourKey with
                | some err =>
                  let be := buildAndSendErr r.conn err badRequestMsg
                  ⟨none, false, some be.1, r.nonces, be.2⟩
                | none => ⟨some ourKey, true, none, r.nonces, []⟩

/-- `allocationLifeTime(m)` of `util.go`: start from the default, and use
the parsed lifetime only when it is strictly below the maximum. -/
def allocationLifeTime (m : StunMessage) : Int :=
  match m.lifetimeAttr with
  | .ok d => if d < maximumAllocationLifetime then d else DefaultLifetime
  | .error _ => DefaultLifetime

/-- `strings.Contains(s, sub)` on the underlying character lists. -/
def charsContain (needle : List Char) : List Char → Bool
  | [] => needle.isEmpty
  | c :: rest => needle.isPrefixOf (c :: rest) || charsContain needle rest

/-- `strings.Contains` on strings. -/
def goStringsContains (s sub : String) : Bool :=
  charsContain sub.data s.data

/-- What `singleThreadSocket` of `main.go` sets up, assuming the OS listen
calls themselves succeed: how many UDP packet-conn configs and TCP listener
configs it builds, and whether it reaches
`log.Panic("socketType must be tcp or udp or both(tcp,udp)")`. -/
structure SocketSetup where
  packetConnConfigs : Nat
  listenerConfigs : Nat
  panics : Bool
deriving DecidableEq

/-- The listener-creation logic of `singleThreadSocket`: the UDP block is
gated on `strings.Contains(configuration.SocketType, "udp")`, and the TCP
block is gated on `strings.Contains(configuration.SocketType, "udp")` as
well (as written in the source); with both lists empty the function
panics. -/
def singleThreadSocketSetup (socketType : String) : SocketSetup :=
  let packetConnConfigs := if goStringsContains socketType "udp" then 1 else 0
  let listenerConfigs := if goStringsContains socketType "udp" then 1 else 0
  { packetConnConfigs := packetConnConfigs
    listenerConfigs := listenerConfigs
    panics := packetConnConfigs == 0 && listenerConfigs == 0 }

/-! ### Helper lemmas -/

/-- `respondWithNonce` never reports the request as authenticated. -/
@[simp]
theorem respondWithNonce_authenticated (now : Int) (genNonce : Except Err String)
    (conn : Conn) (realm : String) (tid cm code : Nat) (nonces : NonceMap) :
    (respondWithNonce now genNonce conn realm tid cm code nonces).authenticated
      = false := by
  unfold respondWithNonce
  cases genNonce with
  | error e => rfl
  | ok n =>
    dsimp only
    split <;> rfl

/-- `respondWithNonce` never returns a key. -/
@[simp]
theorem respondWithNonce_key (now : Int) (genNonce : Except Err String)
    (conn : Conn) (realm : String) (tid cm code : Nat) (nonces : NonceMap) :
    (respondWithNonce now genNonce conn realm tid cm code nonces).key = none := by
  unfold respondWithNonce
  cases genNonce with
  | error e => rfl
  | ok n =>
    dsimp only
    split <;> rfl

/-- Deleting a pointer key from a registry whose keys are all strings does
nothing. -/
theorem strKeyed_delete_ptr (m : NonceMap) (p : Nat) (h : strKeyed m = true) :
    syncMapDelete m (NKey.ptr p) = m := by
  induction m with
  | nil => rfl
  | cons kv rest ih =>
    simp only [strKeyed, List.all_cons, Bool.and_eq_true] at h
    have hrest : syncMapDelete rest (NKey.ptr p) = rest := ih h.2
    cases hk : kv.1 with
    | str s =>
      simp only [syncMapDelete, List.filter] at hrest ⊢
      rw [hk]
      have hne : (NKey.str s != NKey.ptr p) = true := rfl
      rw [hne, hrest]
    | ptr a =>
      rw [hk] at h
      simp at h

/-- Appending a fresh key to the registry makes it loadable. -/
theorem syncMapLoad_append_fresh (m : NonceMap) (k : NKey) (v : Int)
    (h : syncMapLoad m k = none) :
    syncMapLoad (m ++ [(k, v)]) k = some v := by
  induction m with
  | nil => simp [syncMapLoad, List.find?]
  | cons kv rest ih =>
    cases hbe : (kv.1 == k) with
    | true =>
      simp only [syncMapLoad, List.find?, hbe] at h
      simp at h
    | false =>
      simp only [syncMapLoad, List.cons_append, List.find?, hbe] at h ⊢
      exact ih h

/-! ### Claims -/

/-- C1: the claim says a token whose age is at least the nonce lifetime is
reported stale by `authenticateRequest` AND its record is removed from the
registry, so a second validation finds no record.  The code does report it
stale (the 438 challenge below), but `r.Nonces.Delete(nonceAttr)` passes
the `*stun.Nonce` pointer instead of the string key, so the record is never
removed: after the stale handling the registry still holds token `"aa"`,
and a second `authenticateRequest` with the same token still finds it
(`found = true`, issue time `0`), not `found = false`. -/
theorem c1_stale_token_not_removed :
    (authenticateRequest hourNs (Except.ok "bb") 0
        ⟨[(NKey.str "aa", 0)], "kerry", fun _ _ _ => none, ⟨none, none⟩, 5⟩
        ⟨7, true, Except.ok "aa", Except.ok "user", Except.ok "kerry",
          Except.error (Err.attr "no lifetime"), fun _ => none⟩ 3).sent
      = [⟨7, 3, 3, some codeStaleNonce, some "bb", some "kerry"⟩] ∧
    syncMapLoad (authenticateRequest hourNs (Except.ok "bb") 0
        ⟨[(NKey.str "aa", 0)], "kerry", fun _ _ _ => none, ⟨none, none⟩, 5⟩
        ⟨7, true, Except.ok "aa", Except.ok "user", Except.ok "kerry",
          Except.error (Err.attr "no lifetime"), fun _ => none⟩ 3).nonces
      (NKey.str "aa") = some 0 ∧
    syncMapLoad (authenticateRequest hourNs (Except.ok "cc") 1
        ⟨(authenticateRequest hourNs (Except.ok "bb") 0
            ⟨[(NKey.str "aa", 0)], "kerry", fun _ _ _ => none, ⟨none, none⟩, 5⟩
            ⟨7, true, Except.ok "aa", Except.ok "user", Except.ok "kerry",
              Except.error (Err.attr "no lifetime"), fun _ => none⟩ 3).nonces,
          "kerry", fun _ _ _ => none, ⟨none, none⟩, 5⟩
        ⟨7, true, Except.ok "aa", Except.ok "user", Except.ok "kerry",
          Except.error (Err.attr "no lifetime"), fun _ => none⟩ 3).nonces
      (NKey.str "aa") = some 0 := by
  decide

/-- C2: a request whose parsed lifetime attribute exceeds the maximum
allocation lifetime gets exactly the maximum, 3600 seconds (in
nanoseconds), as its allocation lifetime. -/
theorem c2_lifetime_clamped_to_maximum (m : StunMessage) (d : Int)
    (hattr : m.lifetimeAttr = Except.ok d)
    (hexceeds : maximumAllocationLifetime < d) :
    allocationLifeTime m = maximumAllocationLifetime ∧
    maximumAllocationLifetime = 3600 * 1000000000 := by
  refine ⟨?_, by decide⟩
  unfold allocationLifeTime
  rw [hattr]
  have hnot : ¬ d < maximumAllocationLifetime := by omega
  dsimp only
  rw [if_neg hnot]
  rfl

/-- Witness for C2 at a requested lifetime of 7200 seconds. -/
theorem c2_witness :
    allocationLifeTime ⟨0, false, Except.error Err.duplicatedNonce,
        Except.error Err.duplicatedNonce, Except.error Err.duplicatedNonce,
        Except.ok (7200 * 1000000000), fun _ => none⟩
      = maximumAllocationLifetime ∧
    maximumAllocationLifetime = 3600 * 1000000000 :=
  c2_lifetime_clamped_to_maximum _ (7200 * 1000000000) rfl (by decide)

/-- C3: a request with no message-integrity attribute is never
authenticated and yields no key; when nonce generation succeeds with a
previously-unregistered token and the transport works, the call returns no
error, registers the token at the current instant, and hands the transport
exactly one challenge response carrying error code 401, that nonce, and
the configured realm. -/
theorem c3_no_integrity_challenges (now : Int) (genNonce : Except Err String)
    (p : Nat) (r : Request) (m : StunMessage) (cm : Nat)
    (hno : m.hasIntegrity = false) :
    (authenticateRequest now genNonce p r m cm).authenticated = false ∧
    (authenticateRequest now genNonce p r m cm).key = none ∧
    ∀ n, genNonce = Except.ok n →
      syncMapLoad r.nonces (NKey.str n) = none →
      r.conn.buildErr = none → r.conn.writeErr = none →
      (authenticateRequest now genNonce p r m cm).err = none ∧
      syncMapLoad (authenticateRequest now genNonce p r m cm).nonces
        (NKey.str n) = some now ∧
      (authenticateRequest now genNonce p r m cm).sent =
        [⟨m.transactionID, cm, classErrorResponse, some codeUnauthorized,
          some n, some r.realm⟩] := by
  have hred : authenticateRequest now genNonce p r m cm =
      respondWithNonce now genNonce r.conn r.realm m.transactionID cm
        codeUnauthorized r.nonces := by
    simp [authenticateRequest, hno]
  refine ⟨by rw [hred]; simp, by rw [hred]; simp, ?_⟩
  intro n hgen hload hbuild hwrite
  have hresp : respondWithNonce now (Except.ok n) r.conn r.realm
      m.transactionID cm codeUnauthorized r.nonces =
      ⟨none, false, none, r.nonces ++ [(NKey.str n, now)],
        [⟨m.transactionID, cm, classErrorResponse, some codeUnauthorized,
          some n, some r.realm⟩]⟩ := by
    simp [respondWithNonce, syncMapLoadOrStore, hload, buildAndSend, hbuild,
      hwrite, stunBuild, buildMsg, applySetter]
  rw [hred, hgen, hresp]
  exact ⟨rfl, syncMapLoad_append_fresh r.nonces (NKey.str n) now hload, rfl⟩

/-- Witness for C3 on an empty registry and a working transport. -/
theorem c3_witness :
    (authenticateRequest 42 (Except.ok "n1") 0
        ⟨[], "kerry", fun _ _ _ => none, ⟨none, none⟩, 1⟩
        ⟨7, false, Except.error (Err.attr "x"), Except.error (Err.attr "x"),
          Except.error (Err.attr "x"), Except.error (Err.attr "x"),
          fun _ => none⟩ 3).err = none ∧
    syncMapLoad (authenticateRequest 42 (Except.ok "n1") 0
        ⟨[], "kerry", fun _ _ _ => none, ⟨none, none⟩, 1⟩
        ⟨7, false, Except.error (Err.attr "x"), Except.error (Err.attr "x"),
          Except.error (Err.attr "x"), Except.error (Err.attr "x"),
          fun _ => none⟩ 3).nonces (NKey.str "n1") = some 42 ∧
    (authenticateRequest 42 (Except.ok "n1") 0
        ⟨[], "kerry", fun _ _ _ => none, ⟨none, none⟩, 1⟩
        ⟨7, false, Except.error (Err.attr "x"), Except.error (Err.attr "x"),
          Except.error (Err.attr "x"), Except.error (Err.attr "x"),
          fun _ => none⟩ 3).sent =
      [⟨7, 3, 3, some codeUnauthorized, some "n1", some "kerry"⟩] :=
  (c3_no_integrity_challenges 42 (Except.ok "n1") 0
      ⟨[], "kerry", fun _ _ _ => none, ⟨none, none⟩, 1⟩
      ⟨7, false, Except.error (Err.attr "x"), Except.error (Err.attr "x"),
        Except.error (Err.attr "x"), Except.error (Err.attr "x"),
        fun _ => none⟩ 3 rfl).2.2 "n1" rfl rfl rfl rfl

/-- C4: on a request carrying an integrity attribute, a parseable nonce
that is registered and fresher than the nonce lifetime, parseable realm
and username, a resolvable credential, and verifying integrity,
`authenticateRequest` returns the resolved key, `authenticated = true` and
no error (first conjunct); and the nonce check precedes credential
resolution: with an unknown or stale nonce the outcome is identical for
any two credential resolvers (second conjunct). -/
theorem c4_success_path_and_precedence :
    (∀ (now : Int) (genNonce : Except Err String) (p : Nat) (r : Request)
        (m : StunMessage) (cm : Nat)
        (nonceStr realmStr usernameStr ourKey : String) (t : Int),
      m.hasIntegrity = true →
      m.nonceAttr = Except.ok nonceStr →
      syncMapLoad r.nonces (NKey.str nonceStr) = some t →
      now - t < nonceLifetime →
      m.realmAttr = Except.ok realmStr →
      m.usernameAttr = Except.ok usernameStr →
      r.authHandler usernameStr realmStr r.srcAddr = some ourKey →
      m.checkIntegrity ourKey = none →
      authenticateRequest now genNonce p r m cm =
        ⟨some ourKey, true, none, r.nonces, []⟩) ∧
    (∀ (now : Int) (genNonce : Except Err String) (p : Nat) (r : Request)
        (m : StunMessage) (cm : Nat) (nonceStr : String)
        (h1 h2 : String → String → Nat → Option String),
      m.hasIntegrity = true →
      m.nonceAttr = Except.ok nonceStr →
      (syncMapLoad r.nonces (NKey.str nonceStr) = none ∨
        ∃ t, syncMapLoad r.nonces (NKey.str nonceStr) = some t ∧
          nonceLifetime ≤ now - t) →
      authenticateRequest now genNonce p { r with authHandler := h1 } m cm =
        authenticateRequest now genNonce p { r with authHandler := h2 } m cm)
    := by
  constructor
  · intro now genNonce p r m cm nonceStr realmStr usernameStr ourKey t
      hInt hN hL hFresh hR hU hA hC
    have hnot : ¬ nonceLifetime ≤ now - t := not_le.mpr hFresh
    simp [authenticateRequest, hInt, hN, hL, hnot, hR, hU, hA, hC]
  · intro now genNonce p r m cm nonceStr h1 h2 hInt hN hdisj
    rcases hdisj with hL | ⟨t, hL, hstale⟩
    · simp [authenticateRequest, hInt, hN, hL]
    · simp [authenticateRequest, hInt, hN, hL, hstale]

/-- Witness for C4: a concrete fully-successful request, and a concrete
stale-nonce request whose outcome ignores the credential resolver. -/
theorem c4_witness :
    authenticateRequest 10 (Except.ok "bb") 0
        ⟨[(NKey.str "aa", 0)], "kerry",
          fun u re _ => if u == "user" && re == "kerry" then some "KEY"
            else none, ⟨none, none⟩, 5⟩
        ⟨7, true, Except.ok "aa", Except.ok "user", Except.ok "kerry",
          Except.error (Err.attr "x"),
          fun k => if k == "KEY" then none else some (Err.attr "bad")⟩ 3 =
      ⟨some "KEY", true, none, [(NKey.str "aa", 0)], []⟩ ∧
    authenticateRequest hourNs (Except.ok "bb") 0
        ⟨[(NKey.str "aa", 0)], "kerry", fun _ _ _ => some "K1",
          ⟨none, none⟩, 5⟩
        ⟨7, true, Except.ok "aa", Except.ok "user", Except.ok "kerry",
          Except.error (Err.attr "x"), fun _ => none⟩ 3 =
      authenticateRequest hourNs (Except.ok "bb") 0
        ⟨[(NKey.str "aa", 0)], "kerry", fun _ _ _ => none,
          ⟨none, none⟩, 5⟩
        ⟨7, true, Except.ok "aa", Except.ok "user", Except.ok "kerry",
          Except.error (Err.attr "x"), fun _ => none⟩ 3 :=
  ⟨c4_success_path_and_precedence.1 10 (Except.ok "bb") 0
      ⟨[(NKey.str "aa", 0)], "kerry",
        fun u re _ => if u == "user" && re == "kerry" then some "KEY"
          else none, ⟨none, none⟩, 5⟩
      ⟨7, true, Except.ok "aa", Except.ok "user", Except.ok "kerry",
        Except.error (Err.attr "x"),
        fun k => if k == "KEY" then none else some (Err.attr "bad")⟩ 3
      "aa" "kerry" "user" "KEY" 0 rfl rfl (by decide) (by decide) rfl rfl
      (by decide) (by decide),
    c4_success_path_and_precedence.2 hourNs (Except.ok "bb") 0
      ⟨[(NKey.str "aa", 0)], "kerry", fun _ _ _ => none, ⟨none, none⟩, 5⟩
      ⟨7, true, Except.ok "aa", Except.ok "user", Except.ok "kerry",
        Except.error (Err.attr "x"), fun _ => none⟩ 3
      "aa" (fun _ _ _ => some "K1") (fun _ _ _ => none) rfl rfl
      (Or.inr ⟨0, by decide, by decide⟩)⟩

/-- C5: when the freshly generated token collides with a live record, the
registration fails: `authenticateRequest` returns the duplicated-nonce
error, sends nothing, and leaves the registry exactly as it was — the
existing record's issue time is not overwritten and no second record with
the same token appears.  This holds on every path that registers a nonce
(no integrity attribute, unknown nonce, stale nonce). -/
theorem c5_collision_rejected (now : Int) (genNonce : Except Err String)
    (p : Nat) (r : Request) (m : StunMessage) (cm : Nat) (tok : String)
    (t0 : Int)
    (hstr : strKeyed r.nonces = true)
    (hgen : genNonce = Except.ok tok)
    (hlive : syncMapLoad r.nonces (NKey.str tok) = some t0)
    (hpath : m.hasIntegrity = false ∨
      ∃ s, m.nonceAttr = Except.ok s ∧
        (syncMapLoad r.nonces (NKey.str s) = none ∨
          ∃ t, syncMapLoad r.nonces (NKey.str s) = some t ∧
            nonceLifetime ≤ now - t)) :
    authenticateRequest now genNonce p r m cm =
      ⟨none, false, some Err.duplicatedNonce, r.nonces, []⟩ := by
  have hresp : ∀ (conn : Conn) (realm : String) (tid code : Nat),
      respondWithNonce now genNonce conn realm tid cm code r.nonces =
        ⟨none, false, some Err.duplicatedNonce, r.nonces, []⟩ := by
    intro conn realm tid code
    rw [hgen]
    simp [respondWithNonce, syncMapLoadOrStore, hlive]
  have hdel : syncMapDelete r.nonces (NKey.ptr p) = r.nonces :=
    strKeyed_delete_ptr r.nonces p hstr
  cases hInt : m.hasIntegrity with
  | false =>
    have hred : authenticateRequest now genNonce p r m cm =
        respondWithNonce now genNonce r.conn r.realm m.transactionID cm
          codeUnauthorized r.nonces := by
      simp [authenticateRequest, hInt]
    rw [hred]
    exact hresp r.conn r.realm m.transactionID codeUnauthorized
  | true =>
    rcases hpath with hno | ⟨s, hN, hdisj⟩
    · rw [hInt] at hno
      cases hno
    · have hred : authenticateRequest now genNonce p r m cm =
          respondWithNonce now genNonce r.conn r.realm m.transactionID cm
            codeStaleNonce r.nonces := by
        rcases hdisj with hL | ⟨t, hL, hstale⟩
        · simp [authenticateRequest, hInt, hN, hL, hdel]
        · simp [authenticateRequest, hInt, hN, hL, hstale, hdel]
      rw [hred]
      exact hresp r.conn r.realm m.transactionID codeStaleNonce

/-- Witness for C5: a no-integrity request whose generated token `"aa"`
is already registered. -/
theorem c5_witness :
    authenticateRequest 0 (Except.ok "aa") 0
        ⟨[(NKey.str "aa", 5)], "kerry", fun _ _ _ => none, ⟨none, none⟩, 1⟩
        ⟨7, false, Except.error (Err.attr "x"), Except.error (Err.attr "x"),
          Except.error (Err.attr "x"), Except.error (Err.attr "x"),
          fun _ => none⟩ 3 =
      ⟨none, false, some Err.duplicatedNonce, [(NKey.str "aa", 5)], []⟩ :=
  c5_collision_rejected 0 (Except.ok "aa") 0
    ⟨[(NKey.str "aa", 5)], "kerry", fun _ _ _ => none, ⟨none, none⟩, 1⟩
    ⟨7, false, Except.error (Err.attr "x"), Except.error (Err.attr "x"),
      Except.error (Err.attr "x"), Except.error (Err.attr "x"),
      fun _ => none⟩ 3 "aa" 5 (by decide) rfl (by decide) (Or.inl rfl)

/-- C6: a request whose lifetime attribute is absent or fails to parse
gets the default allocation lifetime of one hour. -/
theorem c6_default_lifetime (m : StunMessage) (e : Err)
    (hattr : m.lifetimeAttr = Except.error e) :
    allocationLifeTime m = DefaultLifetime ∧
    DefaultLifetime = 3600 * 1000000000 := by
  refine ⟨?_, by decide⟩
  unfold allocationLifeTime
  rw [hattr]

/-- Witness for C6 on a message with no parseable lifetime attribute. -/
theorem c6_witness :
    allocationLifeTime ⟨0, false, Except.error (Err.attr "x"),
        Except.error (Err.attr "x"), Except.error (Err.attr "x"),
        Except.error (Err.attr "absent"), fun _ => none⟩ = DefaultLifetime ∧
    DefaultLifetime = 3600 * 1000000000 :=
  c6_default_lifetime _ (Err.attr "absent") rfl

/-- C7: `buildAndSendErr` returns exactly the original error when the send
succeeds, and a single combined error holding both the send failure and
the original error when the send fails. -/
theorem c7_original_error_preserved (conn : Conn) (err : Err)
    (attrs : List Setter) :
    ((buildAndSend conn attrs).1 = none →
      (buildAndSendErr conn err attrs).1 = err) ∧
    ∀ sendErr, (buildAndSend conn attrs).1 = some sendErr →
      (buildAndSendErr conn err attrs).1 =
        Err.failedToSendError sendErr err := by
  constructor
  · intro h
    simp [buildAndSendErr, h]
  · intro sendErr h
    simp [buildAndSendErr, h]

/-- Witness for C7: a working transport and a failing one. -/
theorem c7_witness :
    (buildAndSendErr ⟨none, none⟩ Err.duplicatedNonce []).1 =
      Err.duplicatedNonce ∧
    (buildAndSendErr ⟨none, some (Err.other "boom")⟩ Err.duplicatedNonce
        []).1 =
      Err.failedToSendError (Err.other "boom") Err.duplicatedNonce :=
  ⟨(c7_original_error_preserved ⟨none, none⟩ Err.duplicatedNonce []).1 rfl,
    (c7_original_error_preserved ⟨none, some (Err.other "boom")⟩
        Err.duplicatedNonce []).2 (Err.other "boom") rfl⟩

/-- C8: when the message builds, a write failure satisfying
`errors.Is(err, net.ErrClosed)` makes `buildAndSend` return no error, and
any other write error is returned to the caller. -/
theorem c8_closed_write_is_noop (conn : Conn) (attrs : List Setter)
    (hbuild : conn.buildErr = none) :
    (∀ e, conn.writeErr = some e → errIsNetErrClosed e = true →
      (buildAndSend conn attrs).1 = none) ∧
    (∀ e, conn.writeErr = some e → errIsNetErrClosed e = false →
      (buildAndSend conn attrs).1 = some e) := by
  constructor
  · intro e hw hc
    simp [buildAndSend, hbuild, hw, hc]
  · intro e hw hc
    simp [buildAndSend, hbuild, hw, hc]

/-- Witness for C8: a closed destination (an op-error wrapping
`net.ErrClosed`) versus an ordinary write error. -/
theorem c8_witness :
    (buildAndSend ⟨none, some (Err.opError Err.netErrClosed)⟩ []).1 =
      none ∧
    (buildAndSend ⟨none, some (Err.other "reset")⟩ []).1 =
      some (Err.other "reset") :=
  ⟨(c8_closed_write_is_noop ⟨none, some (Err.opError Err.netErrClosed)⟩ []
      rfl).1 (Err.opError Err.netErrClosed) rfl rfl,
    (c8_closed_write_is_noop ⟨none, some (Err.other "reset")⟩ [] rfl).2
      (Err.other "reset") rfl rfl⟩

/-- C9: whenever `authenticateRequest` reports `authenticated = true`, the
nonce registry is left exactly as it was — the presented nonce record
keeps its original issue time and is not consumed by successful use. -/
theorem c9_success_leaves_registry_unchanged (now : Int)
    (genNonce : Except Err String) (p : Nat) (r : Request) (m : StunMessage)
    (cm : Nat)
    (h : (authenticateRequest now genNonce p r m cm).authenticated = true) :
    (authenticateRequest now genNonce p r m cm).nonces = r.nonces := by
  revert h
  unfold authenticateRequest
  repeat' split
  all_goals simp

/-- Witness for C9: a concrete fully-authenticated request whose registry
is returned untouched. -/
theorem c9_witness :
    (authenticateRequest 20 (Except.ok "fresh") 0
        ⟨[(NKey.str "n0", 3)], "kerry",
          fun u re _ => if u == "alice" && re == "kerry" then some "K0"
            else none, ⟨none, none⟩, 9⟩
        ⟨8, true, Except.ok "n0", Except.ok "alice", Except.ok "kerry",
          Except.error (Err.attr "x"),
          fun k => if k == "K0" then none else some (Err.attr "bad")⟩
        1).nonces = [(NKey.str "n0", 3)] :=
  c9_success_leaves_registry_unchanged 20 (Except.ok "fresh") 0
    ⟨[(NKey.str "n0", 3)], "kerry",
      fun u re _ => if u == "alice" && re == "kerry" then some "K0"
        else none, ⟨none, none⟩, 9⟩
    ⟨8, true, Except.ok "n0", Except.ok "alice", Except.ok "kerry",
      Except.error (Err.attr "x"),
      fun k => if k == "K0" then none else some (Err.attr "bad")⟩
    1 (by decide)

/-- C10: `singleThreadSocket` gates the TCP listener on the same condition
as the UDP listener — the socket-type string containing `"udp"` — so for
socket-type `"tcp"` neither listener is created and the function panics. -/
theorem c10_tcp_listener_gated_on_udp :
    (∀ socketType : String,
      (singleThreadSocketSetup socketType).listenerConfigs =
        (if goStringsContains socketType "udp" then 1 else 0) ∧
      (singleThreadSocketSetup socketType).packetConnConfigs =
        (if goStringsContains socketType "udp" then 1 else 0)) ∧
    singleThreadSocketSetup "tcp" = ⟨0, 0, true⟩ :=
  ⟨fun _ => ⟨rfl, rfl⟩, by decide⟩

end WebrtcPionTurn
